import Mathlib

/-!
Shallow embedding of `src/app.py` (the single source file of the
`ai-assisted-health-diagnostics` repository).

The program is a Streamlit page: it configures the Gemini SDK with the
`GEMINI_API_KEY` environment value, builds a phi `Agent`, accepts an uploaded
video, writes it to a temp file with suffix `.mp4`, and on a button press with
a non-empty query uploads the temp file, polls the remote processing state,
builds a fixed prompt around the user query, runs one inference call, and
renders the result; exceptions from the remote calls are classified by a
substring test on their text, and the temp file is unlinked in a `finally`
block attached to the non-empty-query branch.

The embedding makes the external collaborators (Streamlit widgets, the Gemini
SDK, the agent) explicit inputs in an `Env` record: the uploaded bytes, the
query text, the button state, and the results each remote call would return.
`runMain` mirrors the control flow of `main` (lines 15-172 of `app.py`) and
returns the observable effects: the messages rendered, the remote calls
issued, the temp file written, and whether the temp file still exists when
the run ends.  The unbounded polling loop is modelled with explicit fuel;
`runMain ... fuel = none` means the run did not return within `fuel` poll
iterations.
-/

/-- The substring test underlying the Python operator `needle in hay` on `str`:
`chPre n h` decides whether `n` is a prefix of `h` (character lists). -/
def chPre : List Char → List Char → Bool
  | [], _ => true
  | _ :: _, [] => false
  | a :: as, b :: bs => a == b && chPre as bs

/-- `chSub n h` decides whether `n` occurs contiguously inside `h`,
the semantics of the Python `in` operator on strings (app.py line 158). -/
def chSub (needle : List Char) : List Char → Bool
  | [] => chPre needle []
  | b :: bs => chPre needle (b :: bs) || chSub needle bs

/-- The Python operator `needle in hay` on strings (app.py line 158). -/
def strIn (needle hay : String) : Bool :=
  chSub needle.data hay.data

/-- A remote file handle as returned by `upload_file` / `get_file`:
an identifier and a processing-state string (`processed_video.name`,
`processed_video.state.name` in app.py lines 93-99). -/
structure RemoteFile where
  name : String
  state : String
deriving DecidableEq, Repr

/-- One remote call issued by the program: `upload_file(video_path)`,
`get_file(name)`, or the single `multimodal_agent.run(prompt, videos=[v])`
inference call. -/
inductive RemoteCall
  | upload (path : String)
  | getFile (name : String)
  | infer (prompt : String) (video : RemoteFile)
deriving DecidableEq, Repr

/-- A message rendered on the page: `st.error`, `st.warning`, `st.info`,
`st.subheader`, `st.markdown`, `st.write(error)` and `st.video`. -/
inductive Msg
  | error (s : String)
  | warning (s : String)
  | info (s : String)
  | subheader (s : String)
  | markdown (s : String)
  | writeErr (s : String)
  | videoPlayer (path : String)
deriving DecidableEq, Repr

/-- The inputs of one run of `main`: the environment variable, whether agent
construction succeeds, the widget states, the name `NamedTemporaryFile`
chooses (without the suffix the program appends), and the outcomes the
remote endpoints would produce.  `fetchResults k` is the result of the
`k`-th `get_file` call of the polling loop; `uploadResult` and
`inferResult` are `Except.error e` when the corresponding SDK call would
raise an exception whose text is `e`. -/
structure Env where
  geminiKey : Option String
  agentInitOk : Bool
  videoFile : Option (List Nat)
  userQuery : String
  buttonPressed : Bool
  tempName : String
  uploadResult : Except String RemoteFile
  fetchResults : Nat → Except String RemoteFile
  inferResult : String → RemoteFile → Except String String

/-- The observable effects of one run of `main`.  `configuredKey = some k`
records that `genai.configure(api_key=k)` was invoked with key `k`
(`none` = a null key).  `tempCreated` is the path and byte content of the
temp file written by ingress, `tempExistsAfter` whether that file still
exists when the run returns. -/
structure Output where
  configuredKey : Option (Option String)
  messages : List Msg
  calls : List RemoteCall
  tempCreated : Option (String × List Nat)
  tempExistsAfter : Bool
  halted : Bool
deriving DecidableEq, Repr

/-- Modelled from the spec: `genai.configure(api_key=api_key)` (app.py line
36) is a call into the external `google.generativeai` SDK, which is not part
of this repository.  Per the spec it only sets client-wide credential state,
raises nothing and reports nothing at configuration time, even for a null
key; so it is modelled as a pure record of the key that was passed. -/
def configureCall (key : Option String) : Option (Option String) :=
  some key

/-- The path of the temp file: `NamedTemporaryFile(delete=False,
suffix=".mp4")` appends `.mp4` to the name it chooses (app.py lines 64-66). -/
def tempPath (env : Env) : String :=
  env.tempName ++ ".mp4"

/-- Text of the prompt template before the `{user_query}` interpolation point
(app.py lines 101-141). -/
def promptPre : String :=
  "\nYou are an AI medical intake assistant analyzing a patient\x27s video description\nof their symptoms.\n\nCRITICAL MEDICAL DISCLAIMERS:\n- You are an assistant for information organization ONLY\n- You MUST NOT provide any medical diagnoses\n- You MUST NOT suggest specific treatments or medications\n- You MUST flag any potentially urgent symptoms for professional review\n- All information should be verified by qualified healthcare providers\n\nANALYSIS FRAMEWORK:\nPlease analyze this patient video and provide a structured clinical summary\nfocusing on:\n\n1. Chief Complaint and Presenting Symptoms\n   - Primary reason for seeking care\n   - Main symptoms described in patient\x27s own words\n\n2. Symptom Characterization\n   - Duration and timing patterns\n   - Severity using patient\x27s own descriptors\n   - Precipitating and alleviating factors\n   - Associated symptoms\n\n3. Relevant Medical Context\n   - Any mentioned medications, allergies, or existing conditions\n   - Previous treatments or consultations mentioned\n   - Family history if disclosed\n\n4. Patient Perspective and Emotional State\n   - Patient\x27s main concerns and worries\n   - Emotional tone and affect observed\n   - Impact on daily activities and quality of life\n\n5. Clinical Documentation Support\n   - Key phrases and direct patient quotations\n   - Inconsistencies or gaps in the history\n   - Potential areas for further clarification\n\nSPECIFIC USER REQUEST:\n"

/-- Text of the prompt template after the `{user_query}` interpolation point
(app.py lines 142-146). -/
def promptSuf : String :=
  "\n\nPlease structure your response using clear headings and bullet points for easy\nclinical review.\n"

/-- The f-string `analysis_prompt` (app.py lines 101-146): the fixed template
with the user query interpolated at its single placeholder. -/
def analysisPrompt (user_query : String) : String :=
  promptPre ++ user_query ++ promptSuf

/-- The polling loop (app.py lines 95-99):
`while processed_video.state.name == "PROCESSING": time.sleep(1);
processed_video = get_file(processed_video.name)`.
`f` is the current handle, `k` the number of loop iterations performed so far
(each iteration sleeps exactly one second, so `k` is also the seconds slept
and the number of `get_file` calls made), `fuel` bounds the remaining
iterations, since the source loop has no bound of its own.  Returns the
`get_file` calls issued, the final iteration count, and the final handle (or
the exception a `get_file` raised); `none` means `fuel` iterations were not
enough, i.e. the loop was still running. -/
def pollLoop (fetch : Nat → Except String RemoteFile) :
    RemoteFile → Nat → Nat → Option (List RemoteCall × Nat × Except String RemoteFile)
  | f, k, 0 =>
    if f.state = "PROCESSING" then none
    else some ([], k, Except.ok f)
  | f, k, fuel + 1 =>
    if f.state = "PROCESSING" then
      match fetch k with
      | Except.error e => some ([RemoteCall.getFile f.name], k + 1, Except.error e)
      | Except.ok f2 =>
        match pollLoop fetch f2 (k + 1) fuel with
        | none => none
        | some (cs, n, r) => some (RemoteCall.getFile f.name :: cs, n, r)
    else some ([], k, Except.ok f)

/-- The `try` block body (app.py lines 89-153): upload the temp file, poll
until the state leaves `"PROCESSING"`, build the prompt, issue the single
inference call, and on success render the subheader and the response text.
Returns the remote calls issued together with the rendered messages, or the
text of the exception that escaped (to be handled by the `except` clause). -/
def tryBody (env : Env) (fuel : Nat) :
    Option (List RemoteCall × Except String (List Msg)) :=
  match env.uploadResult with
  | Except.error e => some ([RemoteCall.upload (tempPath env)], Except.error e)
  | Except.ok f0 =>
    match pollLoop env.fetchResults f0 0 fuel with
    | none => none
    | some (cs, _, Except.error e) =>
      some (RemoteCall.upload (tempPath env) :: cs, Except.error e)
    | some (cs, _, Except.ok f) =>
      match env.inferResult (analysisPrompt env.userQuery) f with
      | Except.error e =>
        some (RemoteCall.upload (tempPath env) ::
                (cs ++ [RemoteCall.infer (analysisPrompt env.userQuery) f]),
              Except.error e)
      | Except.ok resp =>
        some (RemoteCall.upload (tempPath env) ::
                (cs ++ [RemoteCall.infer (analysisPrompt env.userQuery) f]),
              Except.ok [Msg.subheader "Analysis Result", Msg.markdown resp])

/-- The `except` clause (app.py lines 155-168): classify the exception by a
substring test on its text and render the matching message(s). -/
def handleError (e : String) : List Msg :=
  if strIn "API_KEY_INVALID" e then
    [Msg.error "The provided API key is invalid. Please check and enter a valid key."]
  else
    [Msg.error "An unexpected error occurred during analysis. Please try again later.",
     Msg.writeErr e]

/-- The button branch (app.py lines 83-170): an empty query is rejected with
a warning (the `finally` unlink belongs to the `try` in the `else` branch, so
the warning path does not touch the temp file); otherwise run the `try` body,
apply the `except` clause to an escaping exception, and in either case unlink
the temp file in `finally`.  The boolean is whether the temp file still
exists after the branch. -/
def analyzeBranch (env : Env) (fuel : Nat) :
    Option (List RemoteCall × List Msg × Bool) :=
  if env.userQuery = "" then
    some ([], [Msg.warning "Please enter a question or insight to analyze the video."], true)
  else
    match tryBody env fuel with
    | none => none
    | some (cs, Except.ok msgs) => some (cs, msgs, false)
    | some (cs, Except.error e) => some (cs, handleError e, false)

/-- One run of `main` (app.py lines 15-172).  Configuration always happens
(line 36); if agent construction raises, the error is shown and `st.stop()`
halts the page (lines 48-54); with no uploaded video only the info prompt is
shown (lines 171-172); with a video the temp file is written and played back,
and the analysis branch runs only when the button was pressed. -/
def runMain (env : Env) (fuel : Nat) : Option Output :=
  if env.agentInitOk then
    match env.videoFile with
    | none =>
      some { configuredKey := configureCall env.geminiKey,
             messages := [Msg.info "Please upload a video file to proceed."],
             calls := [], tempCreated := none,
             tempExistsAfter := false, halted := false }
    | some bs =>
      if env.buttonPressed then
        match analyzeBranch env fuel with
        | none => none
        | some (cs, msgs, stillThere) =>
          some { configuredKey := configureCall env.geminiKey,
                 messages := Msg.videoPlayer (tempPath env) :: msgs,
                 calls := cs, tempCreated := some (tempPath env, bs),
                 tempExistsAfter := stillThere, halted := false }
      else
        some { configuredKey := configureCall env.geminiKey,
               messages := [Msg.videoPlayer (tempPath env)],
               calls := [], tempCreated := some (tempPath env, bs),
               tempExistsAfter := true, halted := false }
  else
    some { configuredKey := configureCall env.geminiKey,
           messages := [Msg.error "Failed to initialize the AI agent. Please check your API Key."],
           calls := [], tempCreated := none,
           tempExistsAfter := false, halted := true }

theorem chPre_iff (n : List Char) : ∀ h : List Char, chPre n h = true ↔ ∃ t, h = n ++ t := by
  induction n with
  | nil => intro h; simp [chPre]
  | cons a as ih =>
    intro h
    cases h with
    | nil => simp [chPre]
    | cons b bs =>
      simp only [chPre, Bool.and_eq_true, beq_iff_eq, ih, List.cons_append]
      constructor
      · rintro ⟨rfl, t, rfl⟩; exact ⟨t, rfl⟩
      · rintro ⟨t, ht⟩
        cases ht
        exact ⟨rfl, t, rfl⟩

theorem chSub_iff (n : List Char) : ∀ h : List Char, chSub n h = true ↔ ∃ a b, h = a ++ n ++ b := by
  intro h
  induction h with
  | nil =>
    rw [chSub, chPre_iff]
    simp [List.append_eq_nil, eq_comm]
  | cons c cs ih =>
    rw [chSub, Bool.or_eq_true, chPre_iff, ih]
    constructor
    · rintro (⟨t, ht⟩ | ⟨a, b, hab⟩)
      · exact ⟨[], t, by simpa using ht⟩
      · exact ⟨c :: a, b, by simp [hab]⟩
    · rintro ⟨a, b, hab⟩
      cases a with
      | nil => exact Or.inl ⟨b, by simpa using hab⟩
      | cons x xs =>
        simp only [List.cons_append, List.cons.injEq] at hab
        exact Or.inr ⟨xs, b, hab.2⟩

theorem strIn_iff (needle hay : String) :
    strIn needle hay = true ↔ ∃ a b, hay.data = a ++ needle.data ++ b := by
  rw [strIn, chSub_iff]

theorem pollLoop_sound (fetch : Nat → Except String RemoteFile) :
    ∀ (fuel : Nat) (f : RemoteFile) (k : Nat) (cs : List RemoteCall) (n : Nat)
      (r : Except String RemoteFile),
      pollLoop fetch f k fuel = some (cs, n, r) →
      k ≤ n ∧ cs.length = n - k ∧
      (∀ g, r = Except.ok g → g.state ≠ "PROCESSING") ∧
      (n = k → r = Except.ok f) ∧
      (k < n → f.state = "PROCESSING" ∧ r = fetch (n - 1) ∧
        ∀ j, k ≤ j → j + 1 < n → ∃ fj, fetch j = Except.ok fj ∧ fj.state = "PROCESSING") := by
  intro fuel
  induction fuel with
  | zero =>
    intro f k cs n r h
    rw [pollLoop] at h
    by_cases hs : f.state = "PROCESSING"
    · simp [hs] at h
    · simp only [hs, if_false, Option.some.injEq, Prod.mk.injEq] at h
      obtain ⟨rfl, rfl, rfl⟩ := h
      refine ⟨le_refl _, by simp, ?_, fun _ => rfl, fun hk => absurd hk (lt_irrefl _)⟩
      rintro g ⟨rfl⟩
      exact hs
  | succ fuel ih =>
    intro f k cs n r h
    rw [pollLoop] at h
    by_cases hs : f.state = "PROCESSING"
    · simp only [hs, if_true] at h
      cases hf : fetch k with
      | error e =>
        rw [hf] at h
        simp only [Option.some.injEq, Prod.mk.injEq] at h
        obtain ⟨rfl, rfl, rfl⟩ := h
        refine ⟨Nat.le_succ k, by simp, by rintro g ⟨⟩, ?_, ?_⟩
        · intro hnk; omega
        · intro _
          refine ⟨hs, by simpa using hf.symm, ?_⟩
          intro j hj hj2; omega
      | ok f2 =>
        rw [hf] at h
        dsimp only at h
        cases hrec : pollLoop fetch f2 (k + 1) fuel with
        | none => rw [hrec] at h; simp at h
        | some trip =>
          obtain ⟨cs2, n2, r2⟩ := trip
          rw [hrec] at h
          simp only [Option.some.injEq, Prod.mk.injEq] at h
          obtain ⟨rfl, rfl, rfl⟩ := h
          obtain ⟨h1, h2, h3, h4, h5⟩ := ih f2 (k + 1) cs2 n2 r2 hrec
          refine ⟨by omega, by simp [h2]; omega, h3, by intro hnk; omega, ?_⟩
          intro _
          refine ⟨hs, ?_, ?_⟩
          · rcases Nat.lt_or_ge k (n2 - 1) with hlt | hge
            · exact (h5 (by omega)).2.1
            · have hn2 : n2 = k + 1 := by omega
              have := h4 hn2
              rw [this, hn2]
              simpa using hf.symm
          · intro j hj hj2
            rcases Nat.eq_or_lt_of_le hj with rfl | hjk
            · refine ⟨f2, hf, ?_⟩
              have hk1 : k + 1 < n2 := by omega
              exact (h5 hk1).1
            · exact (h5 (by omega)).2.2 j (by omega) hj2
    · simp only [hs, if_false, Option.some.injEq, Prod.mk.injEq] at h
      obtain ⟨rfl, rfl, rfl⟩ := h
      refine ⟨le_refl _, by simp, ?_, fun _ => rfl, fun hk => absurd hk (lt_irrefl _)⟩
      rintro g ⟨rfl⟩
      exact hs

theorem pollLoop_stuck (fetch : Nat → Except String RemoteFile)
    (hall : ∀ j, ∃ g, fetch j = Except.ok g ∧ g.state = "PROCESSING") :
    ∀ (fuel : Nat) (f : RemoteFile) (k : Nat), f.state = "PROCESSING" →
      pollLoop fetch f k fuel = none := by
  intro fuel
  induction fuel with
  | zero => intro f k hf; simp [pollLoop, hf]
  | succ fuel ih =>
    intro f k hf
    obtain ⟨g, hg, hgs⟩ := hall k
    rw [pollLoop]
    simp only [hf, if_true, hg]
    rw [ih g (k + 1) hgs]

theorem pollLoop_calls (fetch : Nat → Except String RemoteFile) :
    ∀ (fuel : Nat) (f : RemoteFile) (k : Nat) (cs : List RemoteCall) (n : Nat)
      (r : Except String RemoteFile),
      pollLoop fetch f k fuel = some (cs, n, r) →
      ∀ c ∈ cs, ∃ nm, c = RemoteCall.getFile nm := by
  intro fuel
  induction fuel with
  | zero =>
    intro f k cs n r h
    rw [pollLoop] at h
    split at h
    · exact absurd h (by simp)
    · simp only [Option.some.injEq, Prod.mk.injEq] at h
      obtain ⟨rfl, -, -⟩ := h
      intro c hc
      simp at hc
  | succ fuel ih =>
    intro f k cs n r h
    rw [pollLoop] at h
    split at h
    · cases hf : fetch k with
      | error e =>
        rw [hf] at h
        dsimp only at h
        simp only [Option.some.injEq, Prod.mk.injEq] at h
        obtain ⟨rfl, -, -⟩ := h
        intro c hc
        simp only [List.mem_singleton] at hc
        exact ⟨f.name, hc⟩
      | ok f2 =>
        rw [hf] at h
        dsimp only at h
        cases hrec : pollLoop fetch f2 (k + 1) fuel with
        | none => rw [hrec] at h; simp at h
        | some trip =>
          obtain ⟨cs2, n2, r2⟩ := trip
          rw [hrec] at h
          simp only [Option.some.injEq, Prod.mk.injEq] at h
          obtain ⟨rfl, -, -⟩ := h
          intro c hc
          rcases List.mem_cons.mp hc with rfl | hc2
          · exact ⟨f.name, rfl⟩
          · exact ih f2 (k + 1) cs2 n2 r2 hrec c hc2
    · simp only [Option.some.injEq, Prod.mk.injEq] at h
      obtain ⟨rfl, -, -⟩ := h
      intro c hc
      simp at hc

def isInferCall : RemoteCall → Bool
  | RemoteCall.infer _ _ => true
  | _ => false

theorem tryBody_infer_prompt (env : Env) (fuel : Nat) (cs : List RemoteCall)
    (r : Except String (List Msg)) (h : tryBody env fuel = some (cs, r)) :
    ∀ p v, RemoteCall.infer p v ∈ cs → p = analysisPrompt env.userQuery := by
  rw [tryBody] at h
  cases hu : env.uploadResult with
  | error e =>
    rw [hu] at h
    dsimp only at h
    simp only [Option.some.injEq, Prod.mk.injEq] at h
    obtain ⟨rfl, -⟩ := h
    intro p v hp
    simp at hp
  | ok f0 =>
    rw [hu] at h
    dsimp only at h
    cases hp : pollLoop env.fetchResults f0 0 fuel with
    | none => rw [hp] at h; simp at h
    | some trip =>
      obtain ⟨pcs, n, pr⟩ := trip
      rw [hp] at h
      have hpoll := pollLoop_calls env.fetchResults fuel f0 0 pcs n pr hp
      cases pr with
      | error e =>
        dsimp only at h
        simp only [Option.some.injEq, Prod.mk.injEq] at h
        obtain ⟨rfl, -⟩ := h
        intro p v hmem
        rcases List.mem_cons.mp hmem with heq | hmem2
        · exact absurd heq (by simp)
        · obtain ⟨nm, hnm⟩ := hpoll _ hmem2
          exact absurd hnm (by simp)
      | ok f =>
        dsimp only at h
        cases hi : env.inferResult (analysisPrompt env.userQuery) f with
        | error e =>
          rw [hi] at h
          dsimp only at h
          simp only [Option.some.injEq, Prod.mk.injEq] at h
          obtain ⟨rfl, -⟩ := h
          intro p v hmem
          rcases List.mem_cons.mp hmem with heq | hmem2
          · exact absurd heq (by simp)
          · rcases List.mem_append.mp hmem2 with hmem3 | hmem4
            · obtain ⟨nm, hnm⟩ := hpoll _ hmem3
              exact absurd hnm (by simp)
            · simp only [List.mem_singleton, RemoteCall.infer.injEq] at hmem4
              exact hmem4.1
        | ok resp =>
          rw [hi] at h
          dsimp only at h
          simp only [Option.some.injEq, Prod.mk.injEq] at h
          obtain ⟨rfl, -⟩ := h
          intro p v hmem
          rcases List.mem_cons.mp hmem with heq | hmem2
          · exact absurd heq (by simp)
          · rcases List.mem_append.mp hmem2 with hmem3 | hmem4
            · obtain ⟨nm, hnm⟩ := hpoll _ hmem3
              exact absurd hnm (by simp)
            · simp only [List.mem_singleton, RemoteCall.infer.injEq] at hmem4
              exact hmem4.1

theorem tryBody_ok_one_infer (env : Env) (fuel : Nat) (cs : List RemoteCall)
    (msgs : List Msg) (h : tryBody env fuel = some (cs, Except.ok msgs)) :
    ∃ v, v.state ≠ "PROCESSING" ∧
      cs.filter isInferCall = [RemoteCall.infer (analysisPrompt env.userQuery) v] := by
  rw [tryBody] at h
  cases hu : env.uploadResult with
  | error e =>
    rw [hu] at h
    dsimp only at h
    simp at h
  | ok f0 =>
    rw [hu] at h
    dsimp only at h
    cases hp : pollLoop env.fetchResults f0 0 fuel with
    | none => rw [hp] at h; simp at h
    | some trip =>
      obtain ⟨pcs, n, pr⟩ := trip
      rw [hp] at h
      have hpoll := pollLoop_calls env.fetchResults fuel f0 0 pcs n pr hp
      have hsound := pollLoop_sound env.fetchResults fuel f0 0 pcs n pr hp
      cases pr with
      | error e => dsimp only at h; simp at h
      | ok f =>
        dsimp only at h
        cases hi : env.inferResult (analysisPrompt env.userQuery) f with
        | error e => rw [hi] at h; dsimp only at h; simp at h
        | ok resp =>
          rw [hi] at h
          dsimp only at h
          simp only [Option.some.injEq, Prod.mk.injEq] at h
          obtain ⟨rfl, -⟩ := h
          refine ⟨f, hsound.2.2.1 f rfl, ?_⟩
          have hfilter : pcs.filter isInferCall = [] := by
            rw [List.filter_eq_nil_iff]
            intro c hc
            obtain ⟨nm, rfl⟩ := hpoll c hc
            simp [isInferCall]
          simp [List.filter_cons, List.filter_append, isInferCall, hfilter]

theorem runMain_button_eq (env : Env) (fuel : Nat) (bs : List Nat)
    (cs : List RemoteCall) (msgs : List Msg) (still : Bool)
    (ha : env.agentInitOk = true) (hv : env.videoFile = some bs)
    (hb : env.buttonPressed = true)
    (hA : analyzeBranch env fuel = some (cs, msgs, still)) :
    runMain env fuel = some
      { configuredKey := configureCall env.geminiKey,
        messages := Msg.videoPlayer (tempPath env) :: msgs,
        calls := cs, tempCreated := some (tempPath env, bs),
        tempExistsAfter := still, halted := false } := by
  rw [runMain, ha, hv, hb]
  simp [hA]

theorem runMain_button_inv (env : Env) (fuel : Nat) (out : Output) (bs : List Nat)
    (ha : env.agentInitOk = true) (hv : env.videoFile = some bs)
    (hb : env.buttonPressed = true) (h : runMain env fuel = some out) :
    ∃ cs msgs still, analyzeBranch env fuel = some (cs, msgs, still) ∧
      out = { configuredKey := configureCall env.geminiKey,
              messages := Msg.videoPlayer (tempPath env) :: msgs,
              calls := cs, tempCreated := some (tempPath env, bs),
              tempExistsAfter := still, halted := false } := by
  rw [runMain, ha, hv, hb] at h
  simp only [if_true] at h
  cases hA : analyzeBranch env fuel with
  | none => rw [hA] at h; simp at h
  | some trip =>
    obtain ⟨cs, msgs, still⟩ := trip
    rw [hA] at h
    simp only [Option.some.injEq] at h
    exact ⟨cs, msgs, still, rfl, h.symm⟩

def procFile : RemoteFile := { name := "files/demo", state := "PROCESSING" }

def activeFile : RemoteFile := { name := "files/demo", state := "ACTIVE" }

def demoFetch : Nat → Except String RemoteFile :=
  fun j => if j = 0 then Except.ok procFile else Except.ok activeFile

def demoEnv : Env :=
  { geminiKey := some "key", agentInitOk := true,
    videoFile := some [1, 2, 3], userQuery := "Summarize symptoms",
    buttonPressed := true, tempName := "/tmp/tmpdemo",
    uploadResult := Except.ok procFile,
    fetchResults := demoFetch,
    inferResult := fun _ _ => Except.ok "structured summary" }

def demoCalls : List RemoteCall :=
  [RemoteCall.upload "/tmp/tmpdemo.mp4",
   RemoteCall.getFile "files/demo", RemoteCall.getFile "files/demo",
   RemoteCall.infer (analysisPrompt "Summarize symptoms") activeFile]

def demoOut : Output :=
  { configuredKey := some (some "key"),
    messages := [Msg.videoPlayer "/tmp/tmpdemo.mp4", Msg.subheader "Analysis Result",
                 Msg.markdown "structured summary"],
    calls := demoCalls,
    tempCreated := some ("/tmp/tmpdemo.mp4", [1, 2, 3]),
    tempExistsAfter := false, halted := false }

theorem tryBody_demo :
    tryBody demoEnv 3 =
      some (demoCalls, Except.ok [Msg.subheader "Analysis Result",
                                  Msg.markdown "structured summary"]) := rfl

theorem runMain_demo : runMain demoEnv 3 = some demoOut := rfl
/-- The part of `promptPre` before section header 1. -/
def hdrA1 : String :=
  "\nYou are an AI medical intake assistant analyzing a patient\x27s video description\nof their symptoms.\n\nCRITICAL MEDICAL DISCLAIMERS:\n- You are an assistant for information organization ONLY\n- You MUST NOT provide any medical diagnoses\n- You MUST NOT suggest specific treatments or medications\n- You MUST flag any potentially urgent symptoms for professional review\n- All information should be verified by qualified healthcare providers\n\nANALYSIS FRAMEWORK:\nPlease analyze this patient video and provide a structured clinical summary\nfocusing on:\n\n1. "

/-- The part of `promptPre` after section header 1. -/
def hdrB1 : String :=
  "\n   - Primary reason for seeking care\n   - Main symptoms described in patient\x27s own words\n\n2. Symptom Characterization\n   - Duration and timing patterns\n   - Severity using patient\x27s own descriptors\n   - Precipitating and alleviating factors\n   - Associated symptoms\n\n3. Relevant Medical Context\n   - Any mentioned medications, allergies, or existing conditions\n   - Previous treatments or consultations mentioned\n   - Family history if disclosed\n\n4. Patient Perspective and Emotional State\n   - Patient\x27s main concerns and worries\n   - Emotional tone and affect observed\n   - Impact on daily activities and quality of life\n\n5. Clinical Documentation Support\n   - Key phrases and direct patient quotations\n   - Inconsistencies or gaps in the history\n   - Potential areas for further clarification\n\nSPECIFIC USER REQUEST:\n"

set_option maxRecDepth 16384 in
theorem promptPre_split1 :
    promptPre = hdrA1 ++ ("Chief Complaint and Presenting Symptoms" ++ hdrB1) := rfl

/-- The part of `promptPre` before section header 2. -/
def hdrA2 : String :=
  "\nYou are an AI medical intake assistant analyzing a patient\x27s video description\nof their symptoms.\n\nCRITICAL MEDICAL DISCLAIMERS:\n- You are an assistant for information organization ONLY\n- You MUST NOT provide any medical diagnoses\n- You MUST NOT suggest specific treatments or medications\n- You MUST flag any potentially urgent symptoms for professional review\n- All information should be verified by qualified healthcare providers\n\nANALYSIS FRAMEWORK:\nPlease analyze this patient video and provide a structured clinical summary\nfocusing on:\n\n1. Chief Complaint and Presenting Symptoms\n   - Primary reason for seeking care\n   - Main symptoms described in patient\x27s own words\n\n2. "

/-- The part of `promptPre` after section header 2. -/
def hdrB2 : String :=
  "\n   - Duration and timing patterns\n   - Severity using patient\x27s own descriptors\n   - Precipitating and alleviating factors\n   - Associated symptoms\n\n3. Relevant Medical Context\n   - Any mentioned medications, allergies, or existing conditions\n   - Previous treatments or consultations mentioned\n   - Family history if disclosed\n\n4. Patient Perspective and Emotional State\n   - Patient\x27s main concerns and worries\n   - Emotional tone and affect observed\n   - Impact on daily activities and quality of life\n\n5. Clinical Documentation Support\n   - Key phrases and direct patient quotations\n   - Inconsistencies or gaps in the history\n   - Potential areas for further clarification\n\nSPECIFIC USER REQUEST:\n"

set_option maxRecDepth 16384 in
theorem promptPre_split2 :
    promptPre = hdrA2 ++ ("Symptom Characterization" ++ hdrB2) := rfl

/-- The part of `promptPre` before section header 3. -/
def hdrA3 : String :=
  "\nYou are an AI medical intake assistant analyzing a patient\x27s video description\nof their symptoms.\n\nCRITICAL MEDICAL DISCLAIMERS:\n- You are an assistant for information organization ONLY\n- You MUST NOT provide any medical diagnoses\n- You MUST NOT suggest specific treatments or medications\n- You MUST flag any potentially urgent symptoms for professional review\n- All information should be verified by qualified healthcare providers\n\nANALYSIS FRAMEWORK:\nPlease analyze this patient video and provide a structured clinical summary\nfocusing on:\n\n1. Chief Complaint and Presenting Symptoms\n   - Primary reason for seeking care\n   - Main symptoms described in patient\x27s own words\n\n2. Symptom Characterization\n   - Duration and timing patterns\n   - Severity using patient\x27s own descriptors\n   - Precipitating and alleviating factors\n   - Associated symptoms\n\n3. "

/-- The part of `promptPre` after section header 3. -/
def hdrB3 : String :=
  "\n   - Any mentioned medications, allergies, or existing conditions\n   - Previous treatments or consultations mentioned\n   - Family history if disclosed\n\n4. Patient Perspective and Emotional State\n   - Patient\x27s main concerns and worries\n   - Emotional tone and affect observed\n   - Impact on daily activities and quality of life\n\n5. Clinical Documentation Support\n   - Key phrases and direct patient quotations\n   - Inconsistencies or gaps in the history\n   - Potential areas for further clarification\n\nSPECIFIC USER REQUEST:\n"

set_option maxRecDepth 16384 in
theorem promptPre_split3 :
    promptPre = hdrA3 ++ ("Relevant Medical Context" ++ hdrB3) := rfl

/-- The part of `promptPre` before section header 4. -/
def hdrA4 : String :=
  "\nYou are an AI medical intake assistant analyzing a patient\x27s video description\nof their symptoms.\n\nCRITICAL MEDICAL DISCLAIMERS:\n- You are an assistant for information organization ONLY\n- You MUST NOT provide any medical diagnoses\n- You MUST NOT suggest specific treatments or medications\n- You MUST flag any potentially urgent symptoms for professional review\n- All information should be verified by qualified healthcare providers\n\nANALYSIS FRAMEWORK:\nPlease analyze this patient video and provide a structured clinical summary\nfocusing on:\n\n1. Chief Complaint and Presenting Symptoms\n   - Primary reason for seeking care\n   - Main symptoms described in patient\x27s own words\n\n2. Symptom Characterization\n   - Duration and timing patterns\n   - Severity using patient\x27s own descriptors\n   - Precipitating and alleviating factors\n   - Associated symptoms\n\n3. Relevant Medical Context\n   - Any mentioned medications, allergies, or existing conditions\n   - Previous treatments or consultations mentioned\n   - Family history if disclosed\n\n4. "

/-- The part of `promptPre` after section header 4. -/
def hdrB4 : String :=
  "\n   - Patient\x27s main concerns and worries\n   - Emotional tone and affect observed\n   - Impact on daily activities and quality of life\n\n5. Clinical Documentation Support\n   - Key phrases and direct patient quotations\n   - Inconsistencies or gaps in the history\n   - Potential areas for further clarification\n\nSPECIFIC USER REQUEST:\n"

set_option maxRecDepth 16384 in
theorem promptPre_split4 :
    promptPre = hdrA4 ++ ("Patient Perspective and Emotional State" ++ hdrB4) := rfl

/-- The part of `promptPre` before section header 5. -/
def hdrA5 : String :=
  "\nYou are an AI medical intake assistant analyzing a patient\x27s video description\nof their symptoms.\n\nCRITICAL MEDICAL DISCLAIMERS:\n- You are an assistant for information organization ONLY\n- You MUST NOT provide any medical diagnoses\n- You MUST NOT suggest specific treatments or medications\n- You MUST flag any potentially urgent symptoms for professional review\n- All information should be verified by qualified healthcare providers\n\nANALYSIS FRAMEWORK:\nPlease analyze this patient video and provide a structured clinical summary\nfocusing on:\n\n1. Chief Complaint and Presenting Symptoms\n   - Primary reason for seeking care\n   - Main symptoms described in patient\x27s own words\n\n2. Symptom Characterization\n   - Duration and timing patterns\n   - Severity using patient\x27s own descriptors\n   - Precipitating and alleviating factors\n   - Associated symptoms\n\n3. Relevant Medical Context\n   - Any mentioned medications, allergies, or existing conditions\n   - Previous treatments or consultations mentioned\n   - Family history if disclosed\n\n4. Patient Perspective and Emotional State\n   - Patient\x27s main concerns and worries\n   - Emotional tone and affect observed\n   - Impact on daily activities and quality of life\n\n5. "

/-- The part of `promptPre` after section header 5. -/
def hdrB5 : String :=
  "\n   - Key phrases and direct patient quotations\n   - Inconsistencies or gaps in the history\n   - Potential areas for further clarification\n\nSPECIFIC USER REQUEST:\n"

set_option maxRecDepth 16384 in
theorem promptPre_split5 :
    promptPre = hdrA5 ++ ("Clinical Documentation Support" ++ hdrB5) := rfl

def envEmptyQ : Env := { demoEnv with userQuery := "" }

def outEmptyQ : Output :=
  { configuredKey := some (some "key"),
    messages := [Msg.videoPlayer "/tmp/tmpdemo.mp4",
                 Msg.warning "Please enter a question or insight to analyze the video."],
    calls := [], tempCreated := some ("/tmp/tmpdemo.mp4", [1, 2, 3]),
    tempExistsAfter := true, halted := false }

theorem runMain_emptyQ : runMain envEmptyQ 1 = some outEmptyQ := rfl

def envWs : Env := { demoEnv with userQuery := " " }

def outWs : Output :=
  { configuredKey := some (some "key"),
    messages := [Msg.videoPlayer "/tmp/tmpdemo.mp4", Msg.subheader "Analysis Result",
                 Msg.markdown "structured summary"],
    calls := [RemoteCall.upload "/tmp/tmpdemo.mp4",
              RemoteCall.getFile "files/demo", RemoteCall.getFile "files/demo",
              RemoteCall.infer (analysisPrompt " ") activeFile],
    tempCreated := some ("/tmp/tmpdemo.mp4", [1, 2, 3]),
    tempExistsAfter := false, halted := false }

theorem runMain_ws : runMain envWs 3 = some outWs := rfl

def envInitFail : Env := { demoEnv with agentInitOk := false, videoFile := none }

def outInitFail : Output :=
  { configuredKey := some (some "key"),
    messages := [Msg.error "Failed to initialize the AI agent. Please check your API Key."],
    calls := [], tempCreated := none, tempExistsAfter := false, halted := true }

theorem runMain_initFail : runMain envInitFail 1 = some outInitFail := rfl

def envNoVideo : Env := { demoEnv with videoFile := none }

def outNoVideo : Output :=
  { configuredKey := some (some "key"),
    messages := [Msg.info "Please upload a video file to proceed."],
    calls := [], tempCreated := none, tempExistsAfter := false, halted := false }

theorem runMain_noVideo : runMain envNoVideo 1 = some outNoVideo := rfl

def demoErrText : String := "400 INVALID_ARGUMENT. API_KEY_INVALID: API key not valid"

def envErr : Env := { demoEnv with inferResult := fun _ _ => Except.error demoErrText }

theorem tryBody_envErr : tryBody envErr 3 = some (demoCalls, Except.error demoErrText) := rfl

def outErr : Output :=
  { configuredKey := some (some "key"),
    messages := Msg.videoPlayer "/tmp/tmpdemo.mp4" :: handleError demoErrText,
    calls := demoCalls,
    tempCreated := some ("/tmp/tmpdemo.mp4", [1, 2, 3]),
    tempExistsAfter := false, halted := false }

def envNullKey : Env := { demoEnv with geminiKey := none }

theorem runMain_configuredKey (env : Env) (fuel : Nat) (out : Output)
    (h : runMain env fuel = some out) :
    out.configuredKey = configureCall env.geminiKey := by
  rw [runMain] at h
  split at h
  · cases hv : env.videoFile with
    | none =>
      rw [hv] at h
      simp only [Option.some.injEq] at h
      rw [← h]
    | some bs =>
      rw [hv] at h
      dsimp only at h
      split at h
      · cases hA : analyzeBranch env fuel with
        | none => rw [hA] at h; simp at h
        | some trip =>
          obtain ⟨cs, msgs, still⟩ := trip
          rw [hA] at h
          simp only [Option.some.injEq] at h
          rw [← h]
      · simp only [Option.some.injEq] at h
        rw [← h]
  · simp only [Option.some.injEq] at h
    rw [← h]

theorem runMain_key (env : Env) (fuel : Nat) (k : Option String) :
    runMain { env with geminiKey := k } fuel =
      (runMain env fuel).map (fun o => { o with configuredKey := configureCall k }) := by
  obtain ⟨gk, aio, vf, uq, bp, tn, ur, fr, ir⟩ := env
  simp only [runMain]
  cases aio with
  | false => rfl
  | true =>
    cases vf with
    | none => rfl
    | some bs =>
      cases bp with
      | false => rfl
      | true =>
        dsimp only
        have hkey : analyzeBranch ⟨k, true, some bs, uq, true, tn, ur, fr, ir⟩ fuel =
            analyzeBranch ⟨gk, true, some bs, uq, true, tn, ur, fr, ir⟩ fuel := rfl
        rw [hkey]
        cases hA : analyzeBranch ⟨gk, true, some bs, uq, true, tn, ur, fr, ir⟩ fuel with
        | none => rfl
        | some trip =>
          obtain ⟨cs, msgs, still⟩ := trip
          rfl

theorem runMain_infer_prompt (env : Env) (fuel : Nat) (out : Output)
    (h : runMain env fuel = some out) :
    ∀ p v, RemoteCall.infer p v ∈ out.calls → p = analysisPrompt env.userQuery := by
  rw [runMain] at h
  split at h
  · cases hv : env.videoFile with
    | none =>
      rw [hv] at h
      simp only [Option.some.injEq] at h
      intro p v hp
      rw [← h] at hp
      simp at hp
    | some bs =>
      rw [hv] at h
      dsimp only at h
      split at h
      · cases hA : analyzeBranch env fuel with
        | none => rw [hA] at h; simp at h
        | some trip =>
          obtain ⟨cs, msgs, still⟩ := trip
          rw [hA] at h
          simp only [Option.some.injEq] at h
          intro p v hp
          rw [← h] at hp
          simp only at hp
          rw [analyzeBranch] at hA
          split at hA
          · simp only [Option.some.injEq, Prod.mk.injEq] at hA
            obtain ⟨hcs, -, -⟩ := hA
            rw [← hcs] at hp
            simp at hp
          · cases ht : tryBody env fuel with
            | none => rw [ht] at hA; simp at hA
            | some pair =>
              obtain ⟨cs2, r⟩ := pair
              rw [ht] at hA
              cases r with
              | ok msgs2 =>
                dsimp only at hA
                simp only [Option.some.injEq, Prod.mk.injEq] at hA
                obtain ⟨hcs, -, -⟩ := hA
                rw [← hcs] at hp
                exact tryBody_infer_prompt env fuel cs2 (Except.ok msgs2) ht p v hp
              | error e =>
                dsimp only at hA
                simp only [Option.some.injEq, Prod.mk.injEq] at hA
                obtain ⟨hcs, -, -⟩ := hA
                rw [← hcs] at hp
                exact tryBody_infer_prompt env fuel cs2 (Except.error e) ht p v hp
      · simp only [Option.some.injEq] at h
        intro p v hp
        rw [← h] at hp
        simp at hp
  · simp only [Option.some.injEq] at h
    intro p v hp
    rw [← h] at hp
    simp at hp

/-- C1 (counterexample): the claim as stated is false. With the analyze
button pressed and an empty query, the handler returns through the warning
branch (app.py lines 84-87); the `finally` unlink (lines 169-170) belongs to
the `try` statement of the `else` branch only, so on this exit path the temp
file created for the request still exists when the handler returns. -/
theorem temp_cleanup_counterexample :
    ¬ (∀ (env : Env) (fuel : Nat) (out : Output), runMain env fuel = some out →
        env.buttonPressed = true → out.tempCreated.isSome = true →
        out.tempExistsAfter = false) := by
  intro hcl
  have h := hcl envEmptyQ 1 outEmptyQ runMain_emptyQ rfl rfl
  simp [outEmptyQ] at h

/-- C1 (amended): on every exit path of the analysis handler in which the
query is non-empty (success and both failure paths), the temp file no longer
exists when the handler returns; on the empty-query warning exit path the
temp file is not deleted. -/
theorem temp_cleanup_amended (env : Env) (fuel : Nat) (out : Output) (bs : List Nat)
    (h : runMain env fuel = some out) (ha : env.agentInitOk = true)
    (hv : env.videoFile = some bs) (hb : env.buttonPressed = true) :
    (env.userQuery ≠ "" → out.tempExistsAfter = false) ∧
    (env.userQuery = "" → out.tempExistsAfter = true) := by
  obtain ⟨cs, msgs, still, hA, rfl⟩ := runMain_button_inv env fuel out bs ha hv hb h
  rw [analyzeBranch] at hA
  constructor
  · intro hq
    rw [if_neg hq] at hA
    cases ht : tryBody env fuel with
    | none => rw [ht] at hA; simp at hA
    | some pair =>
      obtain ⟨cs2, r⟩ := pair
      rw [ht] at hA
      cases r with
      | ok msgs2 =>
        dsimp only at hA
        simp only [Option.some.injEq, Prod.mk.injEq] at hA
        obtain ⟨-, -, hstill⟩ := hA
        exact hstill.symm
      | error e =>
        dsimp only at hA
        simp only [Option.some.injEq, Prod.mk.injEq] at hA
        obtain ⟨-, -, hstill⟩ := hA
        exact hstill.symm
  · intro hq
    rw [if_pos hq] at hA
    simp only [Option.some.injEq, Prod.mk.injEq] at hA
    obtain ⟨-, -, hstill⟩ := hA
    exact hstill.symm

theorem temp_cleanup_amended_witness :
    demoOut.tempExistsAfter = false ∧ outEmptyQ.tempExistsAfter = true := by
  have h1 := temp_cleanup_amended demoEnv 3 demoOut [1, 2, 3] runMain_demo rfl rfl rfl
  have h2 := temp_cleanup_amended envEmptyQ 1 outEmptyQ [1, 2, 3] runMain_emptyQ rfl rfl rfl
  exact ⟨h1.1 (by decide), h2.2 rfl⟩

/-- C2 (counterexample): the claim as stated is false. The code guards the
analysis only with Python truthiness (`if not user_query`, app.py line 84),
so a whitespace-only query such as a single space is not rejected: the
remote upload/poll/inference sequence runs and no warning is shown. -/
theorem empty_query_counterexample :
    ¬ (∀ (env : Env) (fuel : Nat) (out : Output), runMain env fuel = some out →
        env.buttonPressed = true →
        (∀ c ∈ env.userQuery.data, c.isWhitespace = true) →
        out.calls = [] ∧
        Msg.warning "Please enter a question or insight to analyze the video." ∈
          out.messages) := by
  intro hcl
  have h := hcl envWs 3 outWs runMain_ws rfl (by decide)
  have hne : outWs.calls ≠ [] := by simp [outWs]
  exact hne h.1

/-- C2 (amended): pressing the analyze button with an exactly-empty query
attempts no remote call (no upload, no poll, no inference) and displays the
warning; whitespace-only non-empty queries are not rejected. -/
theorem empty_query_guard (env : Env) (fuel : Nat) (out : Output) (bs : List Nat)
    (h : runMain env fuel = some out) (ha : env.agentInitOk = true)
    (hv : env.videoFile = some bs) (hb : env.buttonPressed = true)
    (hq : env.userQuery = "") :
    out.calls = [] ∧
    Msg.warning "Please enter a question or insight to analyze the video." ∈
      out.messages := by
  obtain ⟨cs, msgs, still, hA, rfl⟩ := runMain_button_inv env fuel out bs ha hv hb h
  rw [analyzeBranch, if_pos hq] at hA
  simp only [Option.some.injEq, Prod.mk.injEq] at hA
  obtain ⟨hcs, hmsgs, -⟩ := hA
  refine ⟨hcs.symm, ?_⟩
  show Msg.warning _ ∈ Msg.videoPlayer (tempPath env) :: msgs
  rw [← hmsgs]
  simp

theorem empty_query_guard_witness :
    outEmptyQ.calls = [] ∧
    Msg.warning "Please enter a question or insight to analyze the video." ∈
      outEmptyQ.messages :=
  empty_query_guard envEmptyQ 1 outEmptyQ [1, 2, 3] runMain_emptyQ rfl rfl rfl rfl

/-- C3 (confirmed): the polling step (app.py lines 95-99) never returns
control while the observed state is "PROCESSING"; each iteration sleeps
exactly one second and then issues one `get_file` status check, so the
iteration count `n` is both the seconds slept and the number of checks
(`cs.length = n`); when every observation reports "PROCESSING" the loop
returns for no amount of fuel (no maximum-attempt bound, infinite polling);
and when it does return it does so at the very first observation that is not
"PROCESSING" - the initial handle when `n = 0`, otherwise the result of the
last fetch, every earlier fetch having reported "PROCESSING" - i.e. within
one polling interval of the state change. -/
theorem polling_spec (fetch : Nat → Except String RemoteFile) (f0 : RemoteFile) :
    (∀ (fuel : Nat) (cs : List RemoteCall) (n : Nat) (r : Except String RemoteFile),
       pollLoop fetch f0 0 fuel = some (cs, n, r) →
       (∀ g, r = Except.ok g → g.state ≠ "PROCESSING") ∧
       cs.length = n ∧
       (n = 0 → r = Except.ok f0) ∧
       (0 < n → f0.state = "PROCESSING" ∧ r = fetch (n - 1) ∧
         ∀ j, j + 1 < n → ∃ fj, fetch j = Except.ok fj ∧ fj.state = "PROCESSING")) ∧
    ((∀ j, ∃ g, fetch j = Except.ok g ∧ g.state = "PROCESSING") →
       f0.state = "PROCESSING" → ∀ fuel, pollLoop fetch f0 0 fuel = none) := by
  constructor
  · intro fuel cs n r h
    obtain ⟨-, h2, h3, h4, h5⟩ := pollLoop_sound fetch fuel f0 0 cs n r h
    refine ⟨h3, by simpa using h2, h4, ?_⟩
    intro hn
    obtain ⟨ha, hb, hc⟩ := h5 hn
    exact ⟨ha, hb, fun j hj => hc j (Nat.zero_le j) hj⟩
  · intro hall hf0 fuel
    exact pollLoop_stuck fetch hall fuel f0 0 hf0

theorem polling_spec_witness :
    activeFile.state ≠ "PROCESSING" ∧
    pollLoop demoFetch procFile 0 3 =
      some ([RemoteCall.getFile "files/demo", RemoteCall.getFile "files/demo"], 2,
            Except.ok activeFile) := by
  have h := polling_spec demoFetch procFile
  refine ⟨?_, rfl⟩
  exact (h.1 3 [RemoteCall.getFile "files/demo", RemoteCall.getFile "files/demo"] 2
    (Except.ok activeFile) rfl).1 activeFile rfl

/-- C4 (confirmed): every exception escaping upload, polling or inference is
handled once at the outer boundary (app.py lines 155-168): when the
exception text contains the literal substring "API_KEY_INVALID" the fixed
invalid-key message is shown, otherwise the generic failure message together
with the raw exception text; the output records exactly the calls of the
single attempt and the temp file is removed, so nothing is retried. -/
theorem error_boundary_spec (env : Env) (fuel : Nat) (bs : List Nat)
    (cs : List RemoteCall) (e : String)
    (ha : env.agentInitOk = true) (hv : env.videoFile = some bs)
    (hb : env.buttonPressed = true) (hq : env.userQuery ≠ "")
    (ht : tryBody env fuel = some (cs, Except.error e)) :
    runMain env fuel = some
      { configuredKey := configureCall env.geminiKey,
        messages := Msg.videoPlayer (tempPath env) :: handleError e,
        calls := cs, tempCreated := some (tempPath env, bs),
        tempExistsAfter := false, halted := false } ∧
    ((∃ a b, e.data = a ++ "API_KEY_INVALID".data ++ b) →
      handleError e =
        [Msg.error "The provided API key is invalid. Please check and enter a valid key."]) ∧
    (¬ (∃ a b, e.data = a ++ "API_KEY_INVALID".data ++ b) →
      handleError e =
        [Msg.error "An unexpected error occurred during analysis. Please try again later.",
         Msg.writeErr e]) := by
  have hA : analyzeBranch env fuel = some (cs, handleError e, false) := by
    rw [analyzeBranch, if_neg hq, ht]
  refine ⟨runMain_button_eq env fuel bs cs (handleError e) false ha hv hb hA, ?_, ?_⟩
  · intro hex
    have hs : strIn "API_KEY_INVALID" e = true := (strIn_iff _ _).mpr hex
    simp [handleError, hs]
  · intro hnex
    have hs : strIn "API_KEY_INVALID" e = false := by
      cases hcase : strIn "API_KEY_INVALID" e
      · rfl
      · exact absurd ((strIn_iff _ _).mp hcase) hnex
    simp [handleError, hs]

theorem error_boundary_spec_witness :
    runMain envErr 3 = some outErr ∧
    handleError demoErrText =
      [Msg.error "The provided API key is invalid. Please check and enter a valid key."] := by
  have h := error_boundary_spec envErr 3 [1, 2, 3] demoCalls demoErrText rfl rfl rfl
    (by decide) tryBody_envErr
  exact ⟨h.1, h.2.1 ((strIn_iff "API_KEY_INVALID" demoErrText).mp rfl)⟩

/-- C5 (confirmed): whenever a video is uploaded, ingress writes exactly one
temp file (app.py lines 64-68): its byte content is exactly the uploaded
input (hence non-empty for non-empty input) and its path carries the `.mp4`
suffix regardless of the uploaded container format, since
`NamedTemporaryFile(suffix=".mp4")` appends it unconditionally. -/
theorem temp_file_ingress_spec (env : Env) (fuel : Nat) (out : Output) (bs : List Nat)
    (ha : env.agentInitOk = true) (hv : env.videoFile = some bs)
    (h : runMain env fuel = some out) :
    ∃ p content, out.tempCreated = some (p, content) ∧ content = bs ∧
      (∃ stem, p = stem ++ ".mp4") ∧ (bs ≠ [] → content ≠ []) := by
  cases hbp : env.buttonPressed with
  | true =>
    obtain ⟨cs, msgs, still, hA, rfl⟩ := runMain_button_inv env fuel out bs ha hv hbp h
    exact ⟨tempPath env, bs, rfl, rfl, ⟨env.tempName, rfl⟩, fun hne => hne⟩
  | false =>
    rw [runMain, ha, hv, hbp] at h
    simp only [Bool.false_eq_true, if_false, if_true, eq_self_iff_true,
      Option.some.injEq] at h
    refine ⟨tempPath env, bs, ?_, rfl, ⟨env.tempName, rfl⟩, fun hne => hne⟩
    rw [← h]

theorem temp_file_ingress_spec_witness :
    ∃ p content, demoOut.tempCreated = some (p, content) ∧ content = [1, 2, 3] ∧
      (∃ stem, p = stem ++ ".mp4") ∧ (([1, 2, 3] : List Nat) ≠ [] → content ≠ []) :=
  temp_file_ingress_spec demoEnv 3 demoOut [1, 2, 3] rfl rfl runMain_demo

/-- C6 (confirmed): the analysis prompt is the fixed template with the user
query interpolated verbatim at its single placeholder; for every query it
contains the five fixed section headers; and on a successful run the `try`
body issues exactly one inference call, passing that prompt and the remote
file handle obtained from polling. -/
theorem prompt_structure_spec :
    (∀ q : String, analysisPrompt q = promptPre ++ q ++ promptSuf) ∧
    (∀ q : String,
      (∃ a b, analysisPrompt q = a ++ ("Chief Complaint and Presenting Symptoms" ++ b)) ∧
      (∃ a b, analysisPrompt q = a ++ ("Symptom Characterization" ++ b)) ∧
      (∃ a b, analysisPrompt q = a ++ ("Relevant Medical Context" ++ b)) ∧
      (∃ a b, analysisPrompt q = a ++ ("Patient Perspective and Emotional State" ++ b)) ∧
      (∃ a b, analysisPrompt q = a ++ ("Clinical Documentation Support" ++ b))) ∧
    (∀ (env : Env) (fuel : Nat) (cs : List RemoteCall) (msgs : List Msg),
      env.userQuery ≠ "" → tryBody env fuel = some (cs, Except.ok msgs) →
      ∃ v, v.state ≠ "PROCESSING" ∧
        cs.filter isInferCall = [RemoteCall.infer (analysisPrompt env.userQuery) v]) := by
  refine ⟨fun q => rfl, fun q => ⟨?_, ?_, ?_, ?_, ?_⟩, ?_⟩
  · exact ⟨hdrA1, hdrB1 ++ q ++ promptSuf,
      by rw [analysisPrompt, promptPre_split1]; simp [String.append_assoc]⟩
  · exact ⟨hdrA2, hdrB2 ++ q ++ promptSuf,
      by rw [analysisPrompt, promptPre_split2]; simp [String.append_assoc]⟩
  · exact ⟨hdrA3, hdrB3 ++ q ++ promptSuf,
      by rw [analysisPrompt, promptPre_split3]; simp [String.append_assoc]⟩
  · exact ⟨hdrA4, hdrB4 ++ q ++ promptSuf,
      by rw [analysisPrompt, promptPre_split4]; simp [String.append_assoc]⟩
  · exact ⟨hdrA5, hdrB5 ++ q ++ promptSuf,
      by rw [analysisPrompt, promptPre_split5]; simp [String.append_assoc]⟩
  · intro env fuel cs msgs _ ht
    exact tryBody_ok_one_infer env fuel cs msgs ht

theorem prompt_structure_spec_witness :
    analysisPrompt "Summarize symptoms" =
      promptPre ++ "Summarize symptoms" ++ promptSuf ∧
    (∃ a b, analysisPrompt "Summarize symptoms" =
      a ++ ("Clinical Documentation Support" ++ b)) ∧
    (∃ v, v.state ≠ "PROCESSING" ∧
      demoCalls.filter isInferCall =
        [RemoteCall.infer (analysisPrompt "Summarize symptoms") v]) := by
  have h := prompt_structure_spec
  exact ⟨h.1 "Summarize symptoms", (h.2.1 "Summarize symptoms").2.2.2.2,
    h.2.2 demoEnv 3 demoCalls
      [Msg.subheader "Analysis Result", Msg.markdown "structured summary"]
      (by decide) tryBody_demo⟩

/-- C7 (confirmed): when agent construction raises at startup (app.py lines
48-54), the fixed initialization error is the only message, `st.stop()`
halts the page, and no temp file is written and no remote call is made - no
uploader, query box or remote call is reachable afterwards. -/
theorem init_failure_spec (env : Env) (fuel : Nat) (ha : env.agentInitOk = false) :
    runMain env fuel = some
      { configuredKey := configureCall env.geminiKey,
        messages := [Msg.error "Failed to initialize the AI agent. Please check your API Key."],
        calls := [], tempCreated := none, tempExistsAfter := false, halted := true } := by
  rw [runMain, ha]
  simp

theorem init_failure_spec_witness : runMain envInitFail 1 = some outInitFail :=
  init_failure_spec envInitFail 1 rfl

/-- C8 (counterexample): the claim as stated quantifies over every run
without an uploaded video, but when agent initialization fails such a run
displays the initialization error message (and halts), not the informational
upload prompt, so the third conjunct of the claim fails. -/
theorem no_video_counterexample :
    ¬ (∀ (env : Env) (fuel : Nat) (out : Output), runMain env fuel = some out →
        env.videoFile = none →
        out.tempCreated = none ∧ out.calls = [] ∧
        out.messages = [Msg.info "Please upload a video file to proceed."]) := by
  intro hcl
  have h := (hcl envInitFail 1 outInitFail runMain_initFail rfl).2.2
  simp [outInitFail] at h

/-- C8 (amended): in every run in which the agent initialized successfully
and no video file has been uploaded, the program creates no temporary file,
performs no remote call, and displays only the informational prompt asking
for an upload (app.py lines 171-172). -/
theorem no_video_spec (env : Env) (fuel : Nat) (ha : env.agentInitOk = true)
    (hv : env.videoFile = none) :
    runMain env fuel = some
      { configuredKey := configureCall env.geminiKey,
        messages := [Msg.info "Please upload a video file to proceed."],
        calls := [], tempCreated := none, tempExistsAfter := false, halted := false } := by
  rw [runMain, ha, hv]
  simp

theorem no_video_spec_witness : runMain envNoVideo 1 = some outNoVideo :=
  no_video_spec envNoVideo 1 rfl rfl

/-- C9 (confirmed): when GEMINI_API_KEY is unset the program still calls the
client-wide credential configuration with a null key (app.py lines 32-36),
which raises nothing and surfaces no message at configuration time (the
configure call is modelled from the spec, see `configureCall`); the resulting
messages and remote calls of a run are exactly those of the same run with any key
set, so a missing credential is observable only through the later remote
calls themselves. -/
theorem null_key_configure_spec (env : Env) (fuel : Nat) (hk : env.geminiKey = none) :
    (∀ out, runMain env fuel = some out → out.configuredKey = some none) ∧
    (∀ k : String,
      runMain { env with geminiKey := some k } fuel =
        (runMain env fuel).map (fun o => { o with configuredKey := configureCall (some k) })) := by
  constructor
  · intro out h
    rw [runMain_configuredKey env fuel out h, hk]
    rfl
  · intro k
    exact runMain_key env fuel (some k)

theorem null_key_configure_spec_witness :
    ({ demoOut with configuredKey := some none } : Output).configuredKey = some none ∧
    runMain { envNullKey with geminiKey := some "key" } 3 =
      (runMain envNullKey 3).map (fun o => { o with configuredKey := configureCall (some "key") }) := by
  have h := null_key_configure_spec envNullKey 3 rfl
  exact ⟨h.1 { demoOut with configuredKey := some none } rfl, h.2 "key"⟩

/-- C10 (confirmed): prompt construction is deterministic and fixed: every
inference call ever issued carries the prompt `promptPre ++ query ++
promptSuf` with `promptPre`/`promptSuf` fixed constants, so two runs with
the same query build identical prompts, and runs with different queries
differ only in the interpolated user-query segment. -/
theorem prompt_determinism_spec (env1 env2 : Env) (fuel1 fuel2 : Nat)
    (out1 out2 : Output) (p1 p2 : String) (v1 v2 : RemoteFile)
    (h1 : runMain env1 fuel1 = some out1) (h2 : runMain env2 fuel2 = some out2)
    (m1 : RemoteCall.infer p1 v1 ∈ out1.calls) (m2 : RemoteCall.infer p2 v2 ∈ out2.calls) :
    p1 = promptPre ++ env1.userQuery ++ promptSuf ∧
    p2 = promptPre ++ env2.userQuery ++ promptSuf ∧
    (env1.userQuery = env2.userQuery → p1 = p2) := by
  have e1 := runMain_infer_prompt env1 fuel1 out1 h1 p1 v1 m1
  have e2 := runMain_infer_prompt env2 fuel2 out2 h2 p2 v2 m2
  rw [analysisPrompt] at e1 e2
  refine ⟨e1, e2, fun hq => ?_⟩
  rw [e1, e2, hq]

theorem prompt_determinism_spec_witness :
    analysisPrompt "Summarize symptoms" =
      promptPre ++ "Summarize symptoms" ++ promptSuf ∧
    analysisPrompt "Summarize symptoms" = analysisPrompt "Summarize symptoms" := by
  have h := prompt_determinism_spec demoEnv demoEnv 3 3 demoOut demoOut
    (analysisPrompt "Summarize symptoms") (analysisPrompt "Summarize symptoms")
    activeFile activeFile runMain_demo runMain_demo
    (by simp [demoOut, demoCalls]) (by simp [demoOut, demoCalls])
  exact ⟨h.1, h.2.2 rfl⟩
